import Mathlib

/-!
Verification of the KeyParty SDK client (`src/client.ts`) against its
natural-language specification.

The development shallowly embeds the request/retry/error-classification
pipeline (`KeyPartyClient.request`, `isErrorResponse`), the input validators
(`validateUserId`, `validateAmount`, the constructor's service-key check) and
the batch fan-out (`batchOperation`).  JavaScript numbers appearing in
validated inputs are modelled as rationals (`Rat`), which captures the
`Number.isInteger` and sign checks exercised here; JSON values are modelled by
an inductive `Js` type.  The transport (`fetch`) is abstracted as a function
from the attempt index to an outcome, and each operation additionally returns
the number of transport invocations it performed, so that "no network call"
and "exactly k+1 invocations" are statable.
-/

namespace KeyParty

/-- JSON values, as decoded by `response.json()`.  Object fields are an
association list; the embedded programs look fields up by first match. -/
inductive Js where
  | null : Js
  | bool (b : Bool) : Js
  | num (q : Rat) : Js
  | str (s : String) : Js
  | arr (elems : List Js) : Js
  | obj (fields : List (String × Js)) : Js

/-- Field lookup on an association list of object fields. -/
def lookupField : List (String × Js) → String → Option Js
  | [], _ => none
  | (k, v) :: rest, key => if k = key then some v else lookupField rest key

/-- `data.k` for an object: `none` models both a missing property and a
non-object receiver. -/
def jsField : Js → String → Option Js
  | .obj fields, k => lookupField fields k
  | _, _ => none

/-- `data.k` when the program goes on to use the value as a string (the
`error` field of a failure envelope).  A non-string value is collapsed to
`none`; the embedded claims only exercise envelopes whose `error` field is a
string or absent, matching the API contract `{success:false, error:string}`. -/
def jsStrField (j : Js) (k : String) : Option String :=
  match jsField j k with
  | some (.str s) => some s
  | _ => none

/-- JavaScript truthiness of a JSON value (`undefined` is modelled by the
surrounding `Option`). -/
def jsTruthy : Js → Bool
  | .null => false
  | .bool b => b
  | .num q => decide (q ≠ 0)
  | .str s => decide (s ≠ "")
  | .arr _ => true
  | .obj _ => true

/-- `String(v)` coercion of a JSON value.  Number formatting is approximated
(`Rat` printing instead of ECMAScript number-to-string); the claims only
exercise string-valued fields. -/
def jsToString : Js → String
  | .null => "null"
  | .bool b => cond b "true" "false"
  | .num q => if q.den = 1 then toString q.num else toString q
  | .str s => s
  | .arr _ => ""
  | .obj _ => "[object Object]"

/-- Character-list version of `String.startsWith` used by the substring
check below. -/
def pfxChars : List Char → List Char → Bool
  | [], _ => true
  | _ :: _, [] => false
  | a :: as, b :: bs => a == b && pfxChars as bs

/-- Does `hay` contain `needle` as a contiguous run?  (`String.includes`.) -/
def subChars (needle : List Char) : List Char → Bool
  | [] => pfxChars needle []
  | c :: rest => pfxChars needle (c :: rest) || subChars needle rest

/-- `hay.includes(pat)` on strings. -/
def strIncludes (hay pat : String) : Bool :=
  subChars pat.toList hay.toList

/-- `e?.includes(pat)` where `e` is the optional `error` field: optional
chaining skips the check when the field is absent. -/
def errIncludes (e : Option String) (pat : String) : Bool :=
  match e with
  | some m => strIncludes m pat
  | none => false

/-- `s.startsWith(pre)` (String.prototype.startsWith). -/
def startsWithJs (s pre : String) : Bool :=
  pfxChars pre.toList s.toList

/-- `s.trim()` (String.prototype.trim): strip leading and trailing
whitespace. -/
def trimJs (s : String) : String :=
  String.mk (((s.toList.dropWhile Char.isWhitespace).reverse.dropWhile
    Char.isWhitespace).reverse)

/-- `s.length` on a string (code points; the validators' length caps are
exercised on ASCII identifiers where this agrees with UTF-16 length). -/
def strLen (s : String) : Nat :=
  s.toList.length

/-- The closed set of error classes from `src/errors.ts` that the pipeline
creates or rethrows.  `networkError` carries the message of the last
underlying transient failure as `originalError` detail. -/
inductive KPError where
  | validationError (msg : String) : KPError
  | authenticationError (msg : String) : KPError
  | forbiddenError (msg : String) : KPError
  | rateLimitError (msg : String) : KPError
  | insufficientCreditsError (msg : String) : KPError
  | userNotFoundError (userId : String) : KPError
  | networkError (msg : String) (originalError : Option String) : KPError
deriving DecidableEq

/-- Outcome of `response.json()`: either the decode fails or yields a value. -/
inductive BodyParse where
  | malformed : BodyParse
  | json (v : Js) : BodyParse

/-- One observed behaviour of the transport (`fetch`): either it throws
before a response is obtained (timeout, connection failure, abort) with the
thrown error's message, or it yields a response with a status, a status text
and a body-parse outcome. -/
inductive TransportOutcome where
  | throws (msg : String) : TransportOutcome
  | responds (status : Nat) (statusText : String) (parse : BodyParse) : TransportOutcome

/-- `response.ok`: HTTP status in the inclusive range 200–299. -/
def statusOk (status : Nat) : Bool :=
  200 ≤ status && status ≤ 299

/-- `KeyPartyClient.isErrorResponse`: the value is an object carrying a
`success` property strictly equal to `false`. -/
def isErrorResponse (data : Js) : Bool :=
  match data with
  | .obj fields =>
    match lookupField fields "success" with
    | some (.bool false) => true
    | _ => false
  | _ => false

/-- `String(body?.userId || 'unknown')` — the user id reported by a
`UserNotFoundError`, read from the outbound request body. -/
def extractUserId (reqBody : Option Js) : String :=
  match reqBody with
  | none => "unknown"
  | some b =>
    match jsField b "userId" with
    | some v => if jsTruthy v then jsToString v else "unknown"
    | none => "unknown"

/-- Result of classifying one attempt: a success value, a terminal error
(one of the named error classes, rethrown by the catch block), or a plain
`Error` — transient, eligible for retry. -/
inductive AttemptOutcome where
  | ok (v : Js) : AttemptOutcome
  | terminal (e : KPError) : AttemptOutcome
  | transient (msg : String) : AttemptOutcome

/-- Classification of a parsed failure envelope (client.ts lines 154–185):
status-code checks apply only to non-2xx responses and come first; then the
message patterns; an unmatched envelope raises a plain `Error` with the raw
message, which the catch block treats as retriable. -/
def classifyEnvelope (status : Nat) (data : Js) (reqBody : Option Js) : AttemptOutcome :=
  let err := jsStrField data "error"
  if !(statusOk status) && status == 401 then
    .terminal (.authenticationError "Invalid service key")
  else if !(statusOk status) && status == 403 then
    .terminal (.forbiddenError
      (match err with
       | some m => if m = "" then "Operation forbidden for this key type" else m
       | none => "Operation forbidden for this key type"))
  else if !(statusOk status) && status == 429 then
    .terminal (.rateLimitError "Rate limit exceeded")
  else if !(statusOk status) && status == 402 && errIncludes err "Insufficient credits" then
    .terminal (.insufficientCreditsError ((err).getD ""))
  else if errIncludes err "User not found" then
    .terminal (.userNotFoundError (extractUserId reqBody))
  else if errIncludes err "Missing API key" then
    .terminal (.authenticationError ((err).getD ""))
  else if errIncludes err "Insufficient credits" then
    .terminal (.insufficientCreditsError ((err).getD ""))
  else
    .transient ((err).getD "")

/-- One attempt of the pipeline (client.ts lines 118–188): transport throw →
transient; JSON decode failure → status fallback (only 401 and 429 are
mapped; any other non-2xx status and the 2xx "expected JSON" case raise plain
`Error`s, hence transient); decoded envelope → `classifyEnvelope`; any other
decoded value → success. -/
def attemptStep (reqBody : Option Js) (out : TransportOutcome) : AttemptOutcome :=
  match out with
  | .throws msg => .transient msg
  | .responds status statusText parse =>
    match parse with
    | .malformed =>
      if !(statusOk status) then
        if status == 401 then .terminal (.authenticationError "Invalid service key")
        else if status == 429 then .terminal (.rateLimitError "Rate limit exceeded")
        else .transient ("HTTP " ++ toString status ++ ": " ++ statusText)
      else .transient "Invalid response format: expected JSON"
    | .json data =>
      if isErrorResponse data then classifyEnvelope status data reqBody
      else .ok data

/-- Final outcome of a `request` call. -/
inductive RequestResult where
  | success (v : Js) : RequestResult
  | failure (e : KPError) : RequestResult

/-- The retry loop of `request`, from the attempt with index `attempt`, with
`remaining` further attempts allowed after it (`remaining = retryAttempts -
attempt`).  Terminal errors are rethrown immediately; a transient failure on
the last allowed attempt becomes the `NetworkError` wrapping it.  The second
component counts transport invocations. -/
def requestFrom (transport : Nat → TransportOutcome) (reqBody : Option Js) :
    Nat → Nat → RequestResult × Nat
  | 0, attempt =>
    match attemptStep reqBody (transport attempt) with
    | .ok v => (.success v, 1)
    | .terminal e => (.failure e, 1)
    | .transient msg =>
      (.failure (.networkError "Max retry attempts exceeded" (some msg)), 1)
  | r + 1, attempt =>
    match attemptStep reqBody (transport attempt) with
    | .ok v => (.success v, 1)
    | .terminal e => (.failure e, 1)
    | .transient _ =>
      let rest := requestFrom transport reqBody r (attempt + 1)
      (rest.1, rest.2 + 1)

/-- `KeyPartyClient.request`: attempt 0 first, then up to `retryAttempts`
retries.  Returns the result together with the number of transport
invocations performed. -/
def request (transport : Nat → TransportOutcome) (reqBody : Option Js)
    (retryAttempts : Nat) : RequestResult × Nat :=
  requestFrom transport reqBody retryAttempts 0

/-- The client configuration after merging with `DEFAULT_CONFIG`
(milliseconds and counts as naturals). -/
structure ClientConfig where
  baseUrl : String
  timeout : Nat
  retryAttempts : Nat
  retryDelay : Nat

/-- `DEFAULT_CONFIG` from client.ts. -/
def DEFAULT_CONFIG : ClientConfig :=
  { baseUrl := "https://ideal-grouse-601.convex.site"
    timeout := 10000
    retryAttempts := 3
    retryDelay := 1000 }

/-- A constructed `KeyPartyClient` instance: the validated service key and
the merged configuration. -/
structure Client where
  serviceKey : String
  config : ClientConfig

/-- The `KeyPartyClient` constructor.  It performs no transport invocation
(its type takes no transport); a credential failing the checks raises
`ValidationError`. -/
def mkClient (serviceKey : String) (config : ClientConfig) : Except KPError Client :=
  if serviceKey = "" then
    .error (.validationError "Service key is required")
  else if !(startsWithJs serviceKey "sk_") then
    .error (.validationError "Service key must start with \"sk_\"")
  else
    .ok { serviceKey := serviceKey, config := config }

/-- `KeyPartyClient.validateUserId`: `none` means the id passed. -/
def validateUserId (userId : String) : Option KPError :=
  if userId = "" || trimJs userId = "" then
    some (.validationError "userId cannot be empty or whitespace")
  else if strLen userId > 255 then
    some (.validationError "userId must be 255 characters or less")
  else
    none

/-- `Number.isInteger` on the rational model of a JavaScript number. -/
def isIntegerJs (q : Rat) : Bool :=
  q.den == 1

/-- `KeyPartyClient.validateAmount`: `allowZero = true` is the `setCredits`
mode, `false` the add/deduct mode. -/
def validateAmount (amount : Rat) (allowZero : Bool) : Option KPError :=
  if !(isIntegerJs amount) then
    some (.validationError "amount must be an integer")
  else if allowZero = false ∧ amount ≤ 0 then
    some (.validationError "amount must be positive")
  else if allowZero = true ∧ amount < 0 then
    some (.validationError "amount cannot be negative")
  else
    none

/-- `reason || defaultText` — JavaScript falsy-default on the optional
reason string. -/
def reasonOr (reason : Option String) (defaultText : String) : String :=
  match reason with
  | some r => if r = "" then defaultText else r
  | none => defaultText

/-- The JSON body `{userId, amount, reason}` sent by the credit operations. -/
def creditBody (userId : String) (amount : Rat) (reason : String) : Js :=
  .obj [("userId", .str userId), ("amount", .num amount), ("reason", .str reason)]

/-- `KeyPartyClient.addCredits`: userId and amount validation (positive
integer), then `request` on `/api/credits/add`.  The second component counts
transport invocations (0 when validation fails before any network call). -/
def addCredits (transport : Nat → TransportOutcome) (c : Client)
    (userId : String) (amount : Rat) (reason : Option String) : RequestResult × Nat :=
  match validateUserId userId with
  | some e => (.failure e, 0)
  | none =>
    match validateAmount amount false with
    | some e => (.failure e, 0)
    | none =>
      request transport (some (creditBody userId amount (reasonOr reason "Credit addition")))
        c.config.retryAttempts

/-- `KeyPartyClient.deductCredits`: as `addCredits`, on `/api/credits/deduct`. -/
def deductCredits (transport : Nat → TransportOutcome) (c : Client)
    (userId : String) (amount : Rat) (reason : Option String) : RequestResult × Nat :=
  match validateUserId userId with
  | some e => (.failure e, 0)
  | none =>
    match validateAmount amount false with
    | some e => (.failure e, 0)
    | none =>
      request transport (some (creditBody userId amount (reasonOr reason "Credit deduction")))
        c.config.retryAttempts

/-- `KeyPartyClient.setCredits`: amount validated with `allowZero = true`,
then `request` on `/api/credits/set`. -/
def setCredits (transport : Nat → TransportOutcome) (c : Client)
    (userId : String) (amount : Rat) (reason : Option String) : RequestResult × Nat :=
  match validateUserId userId with
  | some e => (.failure e, 0)
  | none =>
    match validateAmount amount true with
    | some e => (.failure e, 0)
    | none =>
      request transport (some (creditBody userId amount (reasonOr reason "Credit balance update")))
        c.config.retryAttempts

/-- The settled outcome of one operation in a batch (`Promise.allSettled`
entry): fulfilled with an operation result, or rejected with the error
message text used by the aggregation (`result.reason?.message`). -/
inductive Settled where
  | fulfilled (v : Js) : Settled
  | rejected (msg : String) : Settled

/-- `BatchOperationResult` from types.ts. -/
structure BatchOperationResult where
  operations : List Js
  totalSuccessful : Nat
  totalFailed : Nat
  errors : List (Nat × String)

/-- The `results.forEach` aggregation of `batchOperation`, processing the
settled outcomes in submission order starting at index `i`: fulfilled values
go to `operations`, rejections to `errors` with their original index. -/
def aggregateFrom : Nat → List Settled → BatchOperationResult
  | _, [] => { operations := [], totalSuccessful := 0, totalFailed := 0, errors := [] }
  | i, r :: rs =>
    let rest := aggregateFrom (i + 1) rs
    match r with
    | .fulfilled v =>
      { operations := v :: rest.operations
        totalSuccessful := rest.totalSuccessful + 1
        totalFailed := rest.totalFailed
        errors := rest.errors }
    | .rejected msg =>
      { operations := rest.operations
        totalSuccessful := rest.totalSuccessful
        totalFailed := rest.totalFailed + 1
        errors := (i, msg) :: rest.errors }

/-- The specification of one operation built by the `Array.from` step of
`batchOperation`: an add/deduct call with amount 1 and the defaulted reason. -/
structure CreditOpSpec where
  opKind : String
  userId : String
  amount : Rat
  reason : String

/-- The `count` operations `batchOperation` builds before settling them: each
is a single-credit (`amount = 1`) add or deduct for the same user. -/
def batchSpecs (operation : String) (userId : String) (count : Nat)
    (reason : Option String) : List CreditOpSpec :=
  List.replicate count
    { opKind := operation
      userId := userId
      amount := 1
      reason := reasonOr reason ("Batch " ++ operation) }

/-- `KeyPartyClient.batchOperation`: validates the user id and that `count`
is an integer in [1, 100]; on success builds the `count` single-credit
operations (`batchSpecs`), launches them (their settled outcomes given by
`settle`, indexed by submission order) and aggregates the results.  The
second component is the number of operations launched (0 when validation
fails, so no transport call happens). -/
def batchOperation (settle : Nat → Settled) (operation : String) (userId : String)
    (count : Rat) (reason : Option String) : Except KPError BatchOperationResult × Nat :=
  match validateUserId userId with
  | some e => (.error e, 0)
  | none =>
    if isIntegerJs count = true ∧ 1 ≤ count ∧ count ≤ 100 then
      let n := count.num.toNat
      (.ok (aggregateFrom 0 ((List.range n).map settle)),
        (batchSpecs operation userId n reason).length)
    else
      (.error (.validationError "count must be between 1 and 100"), 0)

/-! ### Pipeline lemmas -/

/-- A terminal classification on the current attempt ends the loop at once:
one transport invocation, the error surfaces unchanged. -/
theorem requestFrom_terminal (transport : Nat → TransportOutcome) (reqBody : Option Js)
    {e : KPError} (remaining attempt : Nat)
    (h : attemptStep reqBody (transport attempt) = .terminal e) :
    requestFrom transport reqBody remaining attempt = (.failure e, 1) := by
  cases remaining <;> simp [requestFrom, h]

/-- A success on the current attempt ends the loop at once. -/
theorem requestFrom_ok (transport : Nat → TransportOutcome) (reqBody : Option Js)
    {v : Js} (remaining attempt : Nat)
    (h : attemptStep reqBody (transport attempt) = .ok v) :
    requestFrom transport reqBody remaining attempt = (.success v, 1) := by
  cases remaining <;> simp [requestFrom, h]

/-- If every attempt classifies as transient, the loop runs all
`remaining + 1` attempts and fails with the `NetworkError` wrapping the last
transient message. -/
theorem requestFrom_transient_all (transport : Nat → TransportOutcome) (reqBody : Option Js)
    (m : Nat → String) (h : ∀ i, attemptStep reqBody (transport i) = .transient (m i)) :
    ∀ remaining attempt, requestFrom transport reqBody remaining attempt =
      (.failure (.networkError "Max retry attempts exceeded" (some (m (attempt + remaining)))),
        remaining + 1) := by
  intro remaining
  induction remaining with
  | zero => intro attempt; simp [requestFrom, h attempt]
  | succ r ih =>
    intro attempt
    have hr := ih (attempt + 1)
    simp only [requestFrom, h attempt, hr]
    have : attempt + 1 + r = attempt + (r + 1) := by omega
    rw [this]

/-- If the first `k` attempts are transient and attempt `k` succeeds within
the allowance, the loop returns the success value after `k + 1` transport
invocations. -/
theorem requestFrom_ok_after (transport : Nat → TransportOutcome) (reqBody : Option Js)
    {v : Js} :
    ∀ (k remaining attempt : Nat),
      (∀ i, i < k → ∃ msg, attemptStep reqBody (transport (attempt + i)) = .transient msg) →
      attemptStep reqBody (transport (attempt + k)) = .ok v →
      k ≤ remaining →
      requestFrom transport reqBody remaining attempt = (.success v, k + 1) := by
  intro k
  induction k with
  | zero =>
    intro remaining attempt _ hok _
    exact requestFrom_ok transport reqBody remaining attempt (by simpa using hok)
  | succ k ih =>
    intro remaining attempt htr hok hle
    obtain ⟨r, rfl⟩ : ∃ r, remaining = r + 1 := ⟨remaining - 1, by omega⟩
    obtain ⟨msg, hmsg⟩ := htr 0 (by omega)
    have hrest := ih r (attempt + 1)
      (fun i hi => by
        have := htr (i + 1) (by omega)
        simpa [Nat.add_assoc, Nat.add_comm 1 i] using this)
      (by
        have : attempt + 1 + k = attempt + (k + 1) := by omega
        rw [this]; exact hok)
      (by omega)
    simp only [requestFrom]
    rw [show attempt + 0 = attempt from rfl] at hmsg
    rw [hmsg, hrest]

/-! ### Aggregation lemmas -/

/-- Only fulfilled outcomes populate `operations`, one per success. -/
theorem aggregateFrom_operations_length (rs : List Settled) :
    ∀ i, (aggregateFrom i rs).operations.length = (aggregateFrom i rs).totalSuccessful := by
  induction rs with
  | nil => intro i; simp [aggregateFrom]
  | cons r rest ih =>
    intro i
    cases r <;> simp [aggregateFrom, ih (i + 1)]

/-- Only rejected outcomes populate `errors`, one per failure. -/
theorem aggregateFrom_errors_length (rs : List Settled) :
    ∀ i, (aggregateFrom i rs).errors.length = (aggregateFrom i rs).totalFailed := by
  induction rs with
  | nil => intro i; simp [aggregateFrom]
  | cons r rest ih =>
    intro i
    cases r <;> simp [aggregateFrom, ih (i + 1)]

/-- Every settled operation is counted exactly once. -/
theorem aggregateFrom_total (rs : List Settled) :
    ∀ i, (aggregateFrom i rs).totalSuccessful + (aggregateFrom i rs).totalFailed = rs.length := by
  induction rs with
  | nil => intro i; simp [aggregateFrom]
  | cons r rest ih =>
    intro i
    cases r <;> simp [aggregateFrom, ← ih (i + 1)] <;> omega

/-- Characterization of the `errors` list when the settled outcomes come
from launching the submissions `i, i+1, …, i+n-1`: exactly the rejected
submissions appear, tagged with their original submission index, in order. -/
theorem aggregateFrom_errors_range (settle : Nat → Settled) :
    ∀ (n i : Nat),
      (aggregateFrom i ((List.range' i n).map settle)).errors =
        (List.range' i n).filterMap (fun j =>
          match settle j with
          | .rejected msg => some (j, msg)
          | .fulfilled _ => none) := by
  intro n
  induction n with
  | zero => intro i; simp [aggregateFrom]
  | succ n ih =>
    intro i
    rw [List.range'_succ]
    cases hs : settle i <;> simp [aggregateFrom, hs, ih (i + 1)]

/-! ### Validator lemmas -/

/-- A failing `validateUserId` always reports a `ValidationError`. -/
theorem validateUserId_validationError {u : String} {e : KPError}
    (h : validateUserId u = some e) : ∃ m, e = .validationError m := by
  unfold validateUserId at h
  split at h
  · exact ⟨_, (Option.some.inj h).symm⟩
  · split at h
    · exact ⟨_, (Option.some.inj h).symm⟩
    · cases h

/-- In add/deduct mode, a non-integer or non-positive amount fails with a
`ValidationError`. -/
theorem validateAmount_addDeduct {amount : Rat}
    (h : isIntegerJs amount = false ∨ amount ≤ 0) :
    ∃ m, validateAmount amount false = some (.validationError m) := by
  unfold validateAmount
  by_cases hi : isIntegerJs amount
  · have hle : amount ≤ 0 := by
      rcases h with h | h
      · rw [hi] at h; cases h
      · exact h
    simp [hi, hle]
  · simp [hi]

/-- In set mode, a non-integer or negative amount fails with a
`ValidationError`. -/
theorem validateAmount_set {amount : Rat}
    (h : isIntegerJs amount = false ∨ amount < 0) :
    ∃ m, validateAmount amount true = some (.validationError m) := by
  unfold validateAmount
  by_cases hi : isIntegerJs amount
  · have hlt : amount < 0 := by
      rcases h with h | h
      · rw [hi] at h; cases h
      · exact h
    simp [hi, hlt]
  · simp [hi]

/-- Reaching the envelope branch: a decoded body recognized by
`isErrorResponse` is classified by `classifyEnvelope`. -/
theorem attemptStep_envelope (status : Nat) (statusText : String) (env : Js)
    (reqBody : Option Js) (henv : isErrorResponse env = true) :
    attemptStep reqBody (.responds status statusText (.json env)) =
      classifyEnvelope status env reqBody := by
  simp [attemptStep, henv]

/-! ### Claim theorems -/

/-- C3: with `retryAttempts = N` and a transport that throws a transient
error on every attempt, `request` performs exactly `N + 1` transport
invocations and fails with a `NetworkError` whose detail wraps the last
transient error encountered (the one thrown on attempt `N`). -/
theorem retry_exhaustion_network (es : Nat → String) (reqBody : Option Js) (N : Nat) :
    request (fun i => .throws (es i)) reqBody N =
      (.failure (.networkError "Max retry attempts exceeded" (some (es N))), N + 1) := by
  have h := requestFrom_transient_all (fun i => .throws (es i)) reqBody es
    (fun i => rfl) N 0
  simpa [request] using h

/-- C4: with `retryAttempts = N`, a transport that fails transiently on the
first `k < N` attempts and then returns a parseable non-envelope JSON body
makes `request` return that body as the success value after exactly `k + 1`
transport invocations (the loop is sequential by construction: attempt
`i + 1` is only reached after attempt `i` classified as transient). -/
theorem retry_then_success (es : Nat → String) (v : Js) (reqBody : Option Js)
    (N k : Nat) (hk : k < N) (hv : isErrorResponse v = false) :
    request (fun i => if i < k then .throws (es i) else .responds 200 "OK" (.json v))
      reqBody N = (.success v, k + 1) := by
  apply requestFrom_ok_after _ _ k N 0
  · intro i hi
    exact ⟨es i, by simp [attemptStep, hi]⟩
  · simp [attemptStep, hv]
  · omega

/-- Witness for C4 at `N = 3`, `k = 1`. -/
theorem retry_then_success_witness :
    request (fun i => if i < 1 then .throws "ECONNRESET"
        else .responds 200 "OK" (.json (.obj [("credits", .num 7)]))) none 3 =
      (.success (.obj [("credits", .num 7)]), 2) :=
  retry_then_success (fun _ => "ECONNRESET") (.obj [("credits", .num 7)]) none 3 1
    (by decide) (by decide)

/-- C5: a 402 response whose body is a failure envelope with an error
message containing "Insufficient credits" fails with
`InsufficientCreditsError` (not `NetworkError`) after exactly one transport
invocation — no retry, for any `retryAttempts`. -/
theorem insufficient_credits_402_terminal (env : Js) (m statusText : String)
    (reqBody : Option Js) (N : Nat)
    (henv : isErrorResponse env = true) (herr : jsStrField env "error" = some m)
    (hm : strIncludes m "Insufficient credits" = true) :
    request (fun _ => .responds 402 statusText (.json env)) reqBody N =
      (.failure (.insufficientCreditsError m), 1) := by
  apply requestFrom_terminal _ _ N 0
  rw [attemptStep_envelope _ _ _ _ henv]
  simp [classifyEnvelope, herr, errIncludes, hm, statusOk]

/-- Witness for C5 at `N = 3` with a concrete envelope. -/
theorem insufficient_credits_402_terminal_witness :
    request (fun _ => .responds 402 "Payment Required"
        (.json (.obj [("success", .bool false), ("error", .str "Insufficient credits: 0 left")])))
      none 3 =
      (.failure (.insufficientCreditsError "Insufficient credits: 0 left"), 1) :=
  insufficient_credits_402_terminal
    (.obj [("success", .bool false), ("error", .str "Insufficient credits: 0 left")])
    "Insufficient credits: 0 left" "Payment Required" none 3
    (by decide) (by decide) (by decide)

/-- C9: a credential string not starting with "sk_" (the empty string
included) makes construction fail with a `ValidationError` — `mkClient`
takes no transport, so no network call can be attempted — and every string
starting with "sk_" constructs the client. -/
theorem constructor_key_validation (s : String) (cfg : ClientConfig) :
    (startsWithJs s "sk_" = false → ∃ m, mkClient s cfg = .error (.validationError m)) ∧
    (startsWithJs s "sk_" = true → mkClient s cfg = .ok { serviceKey := s, config := cfg }) := by
  constructor
  · intro h
    unfold mkClient
    by_cases hs : s = ""
    · simp [hs]
    · simp [hs, h]
  · intro h
    have hs : s ≠ "" := by
      intro he
      rw [he] at h
      exact absurd h (by decide)
    unfold mkClient
    simp [hs, h]

/-- Witness for C9: "pk_live" is rejected, "sk_live" is accepted. -/
theorem constructor_key_validation_witness :
    (∃ m, mkClient "pk_live" DEFAULT_CONFIG = .error (.validationError m)) ∧
    mkClient "sk_live" DEFAULT_CONFIG =
      .ok { serviceKey := "sk_live", config := DEFAULT_CONFIG } :=
  ⟨(constructor_key_validation "pk_live" DEFAULT_CONFIG).1 (by decide),
   (constructor_key_validation "sk_live" DEFAULT_CONFIG).2 (by decide)⟩

/-- C10: `addCredits` and `deductCredits` fail with a `ValidationError` and
zero transport invocations whenever the amount is not an integer or is not
positive; `setCredits` does the same for non-integer or negative amounts but
accepts amount 0, proceeding to the network request. -/
theorem amount_validation (transport : Nat → TransportOutcome) (c : Client)
    (userId : String) (amount : Rat) (reason : Option String) :
    ((isIntegerJs amount = false ∨ amount ≤ 0) →
      (∃ m, addCredits transport c userId amount reason = (.failure (.validationError m), 0)) ∧
      (∃ m, deductCredits transport c userId amount reason = (.failure (.validationError m), 0))) ∧
    ((isIntegerJs amount = false ∨ amount < 0) →
      ∃ m, setCredits transport c userId amount reason = (.failure (.validationError m), 0)) ∧
    (validateUserId userId = none →
      setCredits transport c userId 0 reason =
        request transport (some (creditBody userId 0 (reasonOr reason "Credit balance update")))
          c.config.retryAttempts) := by
  refine ⟨fun h => ?_, fun h => ?_, fun h => ?_⟩
  · cases hval : validateUserId userId with
    | some e =>
      obtain ⟨m, rfl⟩ := validateUserId_validationError hval
      exact ⟨⟨m, by simp [addCredits, hval]⟩, ⟨m, by simp [deductCredits, hval]⟩⟩
    | none =>
      obtain ⟨m, hm⟩ := validateAmount_addDeduct h
      exact ⟨⟨m, by simp [addCredits, hval, hm]⟩, ⟨m, by simp [deductCredits, hval, hm]⟩⟩
  · cases hval : validateUserId userId with
    | some e =>
      obtain ⟨m, rfl⟩ := validateUserId_validationError hval
      exact ⟨m, by simp [setCredits, hval]⟩
    | none =>
      obtain ⟨m, hm⟩ := validateAmount_set h
      exact ⟨m, by simp [setCredits, hval, hm]⟩
  · have h0 : validateAmount 0 true = none := by decide
    simp [setCredits, h, h0]

/-- Witness for C10 at amount −1 (rejected by all three) and amount 0
(accepted by `setCredits`), with a transport that always times out. -/
theorem amount_validation_witness :
    (∃ m, addCredits (fun _ => .throws "timeout") ⟨"sk_w", DEFAULT_CONFIG⟩ "u1" (-1) none =
      (.failure (.validationError m), 0)) ∧
    (∃ m, deductCredits (fun _ => .throws "timeout") ⟨"sk_w", DEFAULT_CONFIG⟩ "u1" (-1) none =
      (.failure (.validationError m), 0)) ∧
    (∃ m, setCredits (fun _ => .throws "timeout") ⟨"sk_w", DEFAULT_CONFIG⟩ "u1" (-1) none =
      (.failure (.validationError m), 0)) ∧
    setCredits (fun _ => .throws "timeout") ⟨"sk_w", DEFAULT_CONFIG⟩ "u1" 0 none =
      request (fun _ => .throws "timeout")
        (some (creditBody "u1" 0 (reasonOr none "Credit balance update"))) 3 := by
  have h := amount_validation (fun _ => .throws "timeout") ⟨"sk_w", DEFAULT_CONFIG⟩ "u1" (-1) none
  have h0 := amount_validation (fun _ => .throws "timeout") ⟨"sk_w", DEFAULT_CONFIG⟩ "u1" 0 none
  exact ⟨(h.1 (Or.inr (by decide))).1, (h.1 (Or.inr (by decide))).2,
    h.2.1 (Or.inr (by decide)), h0.2.2 (by decide)⟩

/-- C7: whenever `batchOperation` returns a result over `n` settled
operations, `operations` holds exactly the successes
(`len(operations) = totalSuccessful`), `errors` exactly the failures
(`len(errors) = totalFailed`), the counts partition the batch
(`totalSuccessful + totalFailed = n`), and `errors` consists precisely of
the rejected submissions tagged with their original submission index. -/
theorem batch_result_invariants (settle : Nat → Settled) (operation userId : String)
    (count : Rat) (reason : Option String) (B : BatchOperationResult) (n : Nat)
    (h : batchOperation settle operation userId count reason = (.ok B, n)) :
    B.operations.length = B.totalSuccessful ∧
    B.errors.length = B.totalFailed ∧
    B.totalSuccessful + B.totalFailed = n ∧
    B.errors = (List.range n).filterMap (fun j =>
      match settle j with
      | .rejected msg => some (j, msg)
      | .fulfilled _ => none) := by
  unfold batchOperation at h
  cases hval : validateUserId userId with
  | some e => rw [hval] at h; cases h
  | none =>
    rw [hval] at h
    by_cases hc : isIntegerJs count = true ∧ 1 ≤ count ∧ count ≤ 100
    · rw [if_pos hc] at h
      simp only [batchSpecs, List.length_replicate, Prod.mk.injEq, Except.ok.injEq] at h
      obtain ⟨hB, hn⟩ := h
      subst hn
      refine ⟨?_, ?_, ?_, ?_⟩
      · rw [← hB]; exact aggregateFrom_operations_length _ 0
      · rw [← hB]; exact aggregateFrom_errors_length _ 0
      · rw [← hB]
        have := aggregateFrom_total ((List.range count.num.toNat).map settle) 0
        simpa using this
      · rw [← hB, List.range_eq_range']
        exact aggregateFrom_errors_range settle count.num.toNat 0
    · rw [if_neg hc] at h
      simp at h

/-- Witness for C7: five operations with the third (index 2) rejecting
yield `totalSuccessful = 4`, `totalFailed = 1` and exactly one errors
entry, at index 2. -/
theorem batch_result_invariants_witness :
    [Js.null, Js.null, Js.null, Js.null].length = 4 ∧
    [((2 : Nat), "boom")].length = 1 ∧
    4 + 1 = 5 ∧
    [((2 : Nat), "boom")] = (List.range 5).filterMap (fun j =>
      match (fun i => if i == 2 then Settled.rejected "boom" else .fulfilled .null) j with
      | .rejected msg => some (j, msg)
      | .fulfilled _ => none) := by
  have h := batch_result_invariants
    (fun i => if i == 2 then .rejected "boom" else .fulfilled .null)
    "add" "u1" 5 none
    { operations := [.null, .null, .null, .null], totalSuccessful := 4,
      totalFailed := 1, errors := [(2, "boom")] } 5 rfl
  exact ⟨h.1, h.2.1, h.2.2.1, h.2.2.2⟩

/-- C8: a `count` that is not an integer in [1, 100] makes `batchOperation`
fail with a `ValidationError` having launched zero operations (hence zero
transport calls); a valid count builds exactly `count` operations, each a
single-credit operation with amount 1. -/
theorem batch_count_validation (settle : Nat → Settled) (operation userId : String)
    (count : Rat) (reason : Option String) :
    (¬(isIntegerJs count = true ∧ 1 ≤ count ∧ count ≤ 100) →
      ∃ m, batchOperation settle operation userId count reason =
        (.error (.validationError m), 0)) ∧
    (∀ n : Nat, (batchSpecs operation userId n reason).length = n ∧
      ∀ s ∈ batchSpecs operation userId n reason, s.amount = 1) := by
  constructor
  · intro h
    cases hval : validateUserId userId with
    | some e =>
      obtain ⟨m, rfl⟩ := validateUserId_validationError hval
      exact ⟨m, by simp [batchOperation, hval]⟩
    | none =>
      refine ⟨"count must be between 1 and 100", ?_⟩
      simp only [batchOperation, hval]
      rw [if_neg h]
  · intro n
    refine ⟨by simp [batchSpecs], fun s hs => ?_⟩
    have hrep : s ∈ List.replicate n
        { opKind := operation, userId := userId, amount := 1,
          reason := reasonOr reason ("Batch " ++ operation) } := by
      simpa [batchSpecs] using hs
    rw [List.eq_of_mem_replicate hrep]

/-- Witness for C8: `count = 0` and `count = 101` are rejected with zero
operations launched; a valid `count = 3` builds three amount-1 operations. -/
theorem batch_count_validation_witness :
    (∃ m, batchOperation (fun _ => .fulfilled .null) "add" "u1" 0 none =
      (.error (.validationError m), 0)) ∧
    (∃ m, batchOperation (fun _ => .fulfilled .null) "add" "u1" 101 none =
      (.error (.validationError m), 0)) ∧
    ((batchSpecs "add" "u1" 3 none).length = 3 ∧
      ∀ s ∈ batchSpecs "add" "u1" 3 none, s.amount = 1) :=
  ⟨(batch_count_validation (fun _ => .fulfilled .null) "add" "u1" 0 none).1 (by decide),
   (batch_count_validation (fun _ => .fulfilled .null) "add" "u1" 101 none).1 (by decide),
   (batch_count_validation (fun _ => .fulfilled .null) "add" "u1" 0 none).2 3⟩

/-- C1 counterexample: a 200 response with envelope
`{success:false, error:"quota check failed"}` — a message matching none of
the classification rules — is NOT terminal: with `retryAttempts = 1` the
transport is invoked twice (retried), and the final failure is a
`NetworkError`, not a generic failure carrying the raw message. -/
theorem generic_envelope_retried_cex :
    request (fun _ => .responds 200 "OK"
        (.json (.obj [("success", .bool false), ("error", .str "quota check failed")])))
      none 1 =
      (.failure (.networkError "Max retry attempts exceeded" (some "quota check failed")), 2) ∧
    (request (fun _ => .responds 200 "OK"
        (.json (.obj [("success", .bool false), ("error", .str "quota check failed")])))
      none 1).2 ≠ 1 :=
  ⟨rfl, by decide⟩

/-- C1 amended: a failure envelope whose message matches none of the
classification rules raises a plain error carrying the raw message text,
which the catch block treats as TRANSIENT: with `retryAttempts = N` and the
same response on every attempt, `request` performs `N + 1` transport
invocations and fails with a `NetworkError` wrapping that message. -/
theorem generic_envelope_transient_retry (env : Js) (m statusText : String) (status : Nat)
    (reqBody : Option Js) (N : Nat)
    (henv : isErrorResponse env = true) (herr : jsStrField env "error" = some m)
    (h1 : strIncludes m "User not found" = false)
    (h2 : strIncludes m "Missing API key" = false)
    (h3 : strIncludes m "Insufficient credits" = false)
    (hstatus : statusOk status = true ∨ (status ≠ 401 ∧ status ≠ 403 ∧ status ≠ 429)) :
    request (fun _ => .responds status statusText (.json env)) reqBody N =
      (.failure (.networkError "Max retry attempts exceeded" (some m)), N + 1) := by
  have hstep : attemptStep reqBody (.responds status statusText (.json env)) = .transient m := by
    rw [attemptStep_envelope _ _ _ _ henv]
    rcases hstatus with hok | ⟨ha, hb, hc⟩
    · simp [classifyEnvelope, herr, errIncludes, h1, h2, h3, hok]
    · simp [classifyEnvelope, herr, errIncludes, h1, h2, h3, ha, hb, hc]
  have h := requestFrom_transient_all (fun _ => .responds status statusText (.json env))
    reqBody (fun _ => m) (fun _ => hstep) N 0
  simpa [request] using h

/-- Witness for C1 (amended) at status 200, `N = 2`. -/
theorem generic_envelope_transient_retry_witness :
    request (fun _ => .responds 200 "OK"
        (.json (.obj [("success", .bool false), ("error", .str "quota limit reconfigured")])))
      none 2 =
      (.failure (.networkError "Max retry attempts exceeded" (some "quota limit reconfigured")), 3) :=
  generic_envelope_transient_retry
    (.obj [("success", .bool false), ("error", .str "quota limit reconfigured")])
    "quota limit reconfigured" "OK" 200 none 2
    (by decide) (by decide) (by decide) (by decide) (by decide) (Or.inl (by decide))

/-- C2 counterexample: a 403 response whose body fails to parse as JSON is
NOT mapped to a terminal `ForbiddenError`: with `retryAttempts = 1` the
transport is invoked twice, and the final failure is a `NetworkError`
wrapping the generic "HTTP 403: Forbidden" message. -/
theorem malformed_403_not_terminal_cex :
    request (fun _ => .responds 403 "Forbidden" .malformed) none 1 =
      (.failure (.networkError "Max retry attempts exceeded" (some "HTTP 403: Forbidden")), 2) ∧
    (request (fun _ => .responds 403 "Forbidden" .malformed) none 1).2 ≠ 1 ∧
    (request (fun _ => .responds 403 "Forbidden" .malformed) none 1).1 ≠
      .failure (.forbiddenError "Operation forbidden for this key type") :=
  ⟨rfl, by decide, by intro h; cases h⟩

/-- C2 amended: when the body fails to parse as JSON and the HTTP status is
non-2xx, only 401 (`AuthenticationError`) and 429 (`RateLimitError`) are
terminal with exactly one transport invocation; every other failure status —
402 and 403 included — produces a generic transient
"HTTP status: statusText" failure that feeds the retry decision and, with
the same response on every attempt, exhausts the retries into a
`NetworkError` after `N + 1` invocations. -/
theorem malformed_body_status_classification (status : Nat) (statusText : String)
    (reqBody : Option Js) (N : Nat) (hbad : statusOk status = false) :
    (status = 401 →
      request (fun _ => .responds status statusText .malformed) reqBody N =
        (.failure (.authenticationError "Invalid service key"), 1)) ∧
    (status = 429 →
      request (fun _ => .responds status statusText .malformed) reqBody N =
        (.failure (.rateLimitError "Rate limit exceeded"), 1)) ∧
    (status ≠ 401 → status ≠ 429 →
      request (fun _ => .responds status statusText .malformed) reqBody N =
        (.failure (.networkError "Max retry attempts exceeded"
          (some ("HTTP " ++ toString status ++ ": " ++ statusText))), N + 1)) := by
  refine ⟨fun h => ?_, fun h => ?_, fun h1 h2 => ?_⟩
  · subst h
    exact requestFrom_terminal _ _ N 0 (by simp [attemptStep, hbad])
  · subst h
    exact requestFrom_terminal _ _ N 0 (by simp [attemptStep, hbad])
  · have hstep : attemptStep reqBody (.responds status statusText .malformed) =
        .transient ("HTTP " ++ toString status ++ ": " ++ statusText) := by
      simp [attemptStep, hbad, h1, h2]
    have h := requestFrom_transient_all (fun _ => .responds status statusText .malformed)
      reqBody (fun _ => "HTTP " ++ toString status ++ ": " ++ statusText)
      (fun _ => hstep) N 0
    simpa [request] using h

/-- Witness for C2 (amended): 401 and 429 are terminal; 402 with an
unparseable body is retried and exhausts into a `NetworkError`. -/
theorem malformed_body_status_classification_witness :
    request (fun _ => .responds 401 "Unauthorized" .malformed) none 3 =
      (.failure (.authenticationError "Invalid service key"), 1) ∧
    request (fun _ => .responds 429 "Too Many Requests" .malformed) none 3 =
      (.failure (.rateLimitError "Rate limit exceeded"), 1) ∧
    request (fun _ => .responds 402 "Payment Required" .malformed) none 1 =
      (.failure (.networkError "Max retry attempts exceeded"
        (some ("HTTP " ++ toString 402 ++ ": " ++ "Payment Required"))), 2) :=
  ⟨(malformed_body_status_classification 401 "Unauthorized" none 3 (by decide)).1 rfl,
   (malformed_body_status_classification 429 "Too Many Requests" none 3 (by decide)).2.1 rfl,
   (malformed_body_status_classification 402 "Payment Required" none 1 (by decide)).2.2
     (by decide) (by decide)⟩

/-- C6 counterexample: a failure envelope with message "User not found: u1"
under HTTP status 401 does NOT fail with `UserNotFoundError` — the 401
status classification takes priority and `request` fails with
`AuthenticationError`. -/
theorem user_not_found_status_priority_cex :
    request (fun _ => .responds 401 "Unauthorized"
        (.json (.obj [("success", .bool false), ("error", .str "User not found: u1")])))
      (some (.obj [("userId", .str "u1")])) 3 =
      (.failure (.authenticationError "Invalid service key"), 1) ∧
    (request (fun _ => .responds 401 "Unauthorized"
        (.json (.obj [("success", .bool false), ("error", .str "User not found: u1")])))
      (some (.obj [("userId", .str "u1")])) 3).1 ≠
      .failure (.userNotFoundError "u1") :=
  ⟨rfl, by intro h; cases h⟩

/-- C6 amended: a failure envelope whose message contains "User not found"
fails terminally with `UserNotFoundError` after one transport invocation —
for any HTTP status EXCEPT when a status classification takes priority
(401, 403, 429, or 402 with a message also containing "Insufficient
credits").  The reported user id is `String(body?.userId || 'unknown')`: the
outbound body's `userId` field when present and truthy, else "unknown". -/
theorem user_not_found_classification (env : Js) (m statusText : String) (status : Nat)
    (reqBody : Option Js) (N : Nat)
    (henv : isErrorResponse env = true) (herr : jsStrField env "error" = some m)
    (hm : strIncludes m "User not found" = true)
    (hstatus : statusOk status = true ∨
      (status ≠ 401 ∧ status ≠ 403 ∧ status ≠ 429 ∧
        (status = 402 → strIncludes m "Insufficient credits" = false))) :
    request (fun _ => .responds status statusText (.json env)) reqBody N =
      (.failure (.userNotFoundError (extractUserId reqBody)), 1) ∧
    extractUserId none = "unknown" ∧
    (∀ b v, jsField b "userId" = some v → jsTruthy v = true →
      extractUserId (some b) = jsToString v) ∧
    (∀ b v, jsField b "userId" = some v → jsTruthy v = false →
      extractUserId (some b) = "unknown") ∧
    (∀ b, jsField b "userId" = none → extractUserId (some b) = "unknown") := by
  refine ⟨?_, rfl, fun b v hb hv => by simp [extractUserId, hb, hv],
    fun b v hb hv => by simp [extractUserId, hb, hv],
    fun b hb => by simp [extractUserId, hb]⟩
  apply requestFrom_terminal _ _ N 0
  rw [attemptStep_envelope _ _ _ _ henv]
  rcases hstatus with hok | ⟨ha, hb, hc, hd⟩
  · simp [classifyEnvelope, herr, errIncludes, hm, hok]
  · by_cases h402 : status = 402
    · simp [classifyEnvelope, herr, errIncludes, hm, ha, hb, hc, h402, hd h402]
    · simp [classifyEnvelope, herr, errIncludes, hm, ha, hb, hc, h402]

/-- Witness for C6 (amended): status 200 envelope "User not found: u7" with
body `{userId:"u7"}` reports `UserNotFoundError` for "u7" in one invocation. -/
theorem user_not_found_classification_witness :
    request (fun _ => .responds 200 "OK"
        (.json (.obj [("success", .bool false), ("error", .str "User not found: u7")])))
      (some (.obj [("userId", .str "u7")])) 3 =
      (.failure (.userNotFoundError "u7"), 1) := by
  have h := (user_not_found_classification
    (.obj [("success", .bool false), ("error", .str "User not found: u7")])
    "User not found: u7" "OK" 200 (some (.obj [("userId", .str "u7")])) 3
    (by decide) (by decide) (by decide) (Or.inl (by decide))).1
  simpa [extractUserId, jsField, lookupField, jsTruthy, jsToString] using h

end KeyParty
